import Mathlib

/-!
Shallow embedding of `src/gee_subsets.py` (Google Earth Engine subsets
script).  The script parses CLI arguments (`getArgs`, lines 24-89), resolves
a list of locations (lines 99-106), builds a point or rectangle geometry per
location (lines 108-138), normalizes the table returned by the remote
`getRegion` call (lines 147-164) and writes or prints it (lines 169-172).

Conventions of the embedding:
  * `argparse` stores every scalar option value as a string; options with
    default `0` that may instead carry a string (`--file`, `--directory`)
    are modelled as `Option String` (`none` = the falsy integer default),
    and `--location` (two strings when given, `0` otherwise) as
    `Option (String × String)`.
  * Python truthiness of those values is modelled explicitly
    (`pyTruthyStr`, `pyTruthyOptStr`, `pyTruthyOptPair`).
  * Python runtime errors relevant to the resolver are values of `PyError`.
  * Numeric table cells and coordinates are modelled as `Rat`; the float
    literal `0.008983` of line 112 is modelled as the exact rational
    8983/1000000.
  * The remote collaborator (`getRegion`) is outside this repository; its
    reply is modelled from the spec as a header row plus data records.
-/

namespace GeeSubsets

/-- Python runtime errors that the resolver of lines 99-106 and the location
loop of line 123 can raise. -/
inductive PyError where
  | nameError (name : String)
  | attributeError (attr : String)
  | typeError (what : String)
deriving DecidableEq, Repr

/-- The argparse namespace produced by `getArgs` (src lines 24-89): one field
per destination name derived from the long option strings.  The `--end`
option's dest is `end`, a Lean keyword, hence the field name `end_`. -/
structure Args where
  product : String
  band : List String
  start : String
  end_ : String
  radius : String
  scale : String
  location : Option (String × String)
  file : Option String
  directory : Option String
deriving DecidableEq, Repr

/-- Python truthiness of a string value: nonempty. -/
def pyTruthyStr (s : String) : Bool := s ≠ ""

/-- Python truthiness of an option that defaults to the integer `0` and
otherwise holds a string: `0` is falsy, a string is truthy iff nonempty. -/
def pyTruthyOptStr : Option String → Bool
  | none => false
  | some s => s ≠ ""

/-- Python truthiness of the `--location` value: the default `0` is falsy, a
two-element argument list is always truthy. -/
def pyTruthyOptPair : Option (String × String) → Bool
  | none => false
  | some _ => true

/-- Attribute lookup on the argparse namespace, returning the Python
truthiness of the attribute's value, or `AttributeError` when `getArgs`
defines no option with that destination name.  In particular `args.loc`
(src line 101) errors: the option declared as `-loc` and `--location` has
destination `location`, not `loc`. -/
def getattrTruthy (args : Args) : String → Except PyError Bool
  | "product" => .ok (pyTruthyStr args.product)
  | "band" => .ok (!args.band.isEmpty)
  | "start" => .ok (pyTruthyStr args.start)
  | "end" => .ok (pyTruthyStr args.end_)
  | "radius" => .ok (pyTruthyStr args.radius)
  | "scale" => .ok (pyTruthyStr args.scale)
  | "location" => .ok (pyTruthyOptPair args.location)
  | "file" => .ok (pyTruthyOptStr args.file)
  | "directory" => .ok (pyTruthyOptStr args.directory)
  | a => .error (.attributeError a)

/-- The value the resolver can bind to the variable `locations`: either the
tuple `('site',) + tuple(args.location)` of src line 104 or the data frame
`pd.read_csv(args.file)` of src line 106 (kept symbolic as the string handed
to the csv reader). -/
inductive Locations where
  | tuple (elems : List String)
  | table (csvSource : String)
deriving DecidableEq, Repr

/-- Outcome of executing the resolver block, src lines 99-106:
either `locations` was bound (`ok`), a warning was printed and `locations`
left unbound (`warned`), no branch ran so `locations` is unbound
(`unbound`), or a Python error was raised (`err`). -/
inductive ResolveOutcome where
  | ok (locs : Locations)
  | warned (msg : String)
  | unbound
  | err (e : PyError)
deriving DecidableEq, Repr

/-- Location resolution, src lines 99-106.  `isfile` models
`os.path.isfile`, an external filesystem predicate.

  if args.file:
     if os.path.isfile(args.file):
       if args.loc:
           print("not a valid location file, check path")
       else:
           locations = ('site',) + tuple(args.location)
     else:
         locations = pd.read_csv(args.file)

The `args.loc` access raises `AttributeError`, so with an existing file the
two inner branches are unreachable; they are still modelled faithfully
(`tuple(args.location)` on the integer default `0` would raise `TypeError`). -/
def resolveLocations (args : Args) (isfile : String → Bool) : ResolveOutcome :=
  match getattrTruthy args "file" with
  | .error e => .err e
  | .ok false => .unbound
  | .ok true =>
    match args.file with
    | none => .unbound
    | some f =>
      if isfile f then
        match getattrTruthy args "loc" with
        | .error e => .err e
        | .ok true => .warned "not a valid location file, check path"
        | .ok false =>
          match args.location with
          | some p => .ok (.tuple ["site", p.1, p.2])
          | none => .err (.typeError "can only concatenate tuple (not int) to tuple")
      else
        .ok (.table f)

/-- Entry of the query loop, src line 123 (`for loc in locations.itertuples()`):
using the variable `locations` raises `NameError` when no resolver branch
bound it, propagates a resolver error, and otherwise yields the bound value.
Every remote query (src line 144) happens only after this lookup succeeds. -/
def locationsLookup : ResolveOutcome → Except PyError Locations
  | .ok l => .ok l
  | .warned _ => .error (.nameError "locations")
  | .unbound => .error (.nameError "locations")
  | .err e => .error e

/-- Conversion factor of src line 112 (`0.008983` degrees per km), modelled
as the exact decimal rational. -/
def kmToDeg : Rat := 8983 / 1000000

/-- A geometry handed to the remote service: `ee.Geometry.Point([x, y])` or
`ee.Geometry.Rectangle([xmin, ymin, xmax, ymax])`. -/
inductive Geometry where
  | point (x y : Rat)
  | rectangle (xmin ymin xmax ymax : Rat)
deriving DecidableEq, Repr

/-- Geometry construction for one location, src lines 108-138.  `radiusArg`
is the raw string held by `args.radius` (argparse stores strings; the
default is `"0"`), and `radiusArgVal` is the number `float(args.radius)`
denotes — the embedding does not model Python float parsing, so the parsed
value is passed alongside the raw string.  `lat` is `loc[2]` and `lon` is
`loc[3]` of the location row.

Line 111 guards the assignment `radius = float(args.radius) * 0.008983`
with `args.radius > 0`, a string-to-integer comparison: under Python 2 it
is always true (numbers order below strings), so `radius` is always bound;
under Python 3 it raises `TypeError` for every run.  The Python 2 reading
is modelled, so the let-binding is unconditional.

Line 133 branches on `if args.radius:` — the truthiness of the *string*, so
any nonempty string (including `"0"`) selects the rectangle branch. -/
def buildGeometry (radiusArg : String) (radiusArgVal : Rat) (lat lon : Rat) : Geometry :=
  let radius := radiusArgVal * kmToDeg
  if pyTruthyStr radiusArg then
    .rectangle (lon - radius) (lat - radius) (lon + radius) (lat + radius)
  else
    .point lon lat

/-- Table cells: numbers (Python ints and floats as exact rationals),
strings, and the calendar timestamps produced by `pd.to_datetime`, recorded
by their distance from the epoch in seconds. -/
inductive Cell where
  | num (q : Rat)
  | str (s : String)
  | ts (secondsSinceEpoch : Rat)
deriving DecidableEq, Repr

/-- A pandas data frame as the script uses it: named columns and data rows;
the implicit row index is the position in `rows` (a `RangeIndex`, which
`from_records` creates and `to_csv` writes out by default). -/
structure DataFrame where
  columns : List String
  rows : List (List Cell)
deriving DecidableEq, Repr

/-- Reply of the remote collaborator's `getRegion(...).getInfo()` call
(src line 144): `region[0]` is the header row of column names and
`region[1:]` the data records.  Modelled from the spec: section 4.3 requires
the header to include `id` and `time`, and the section 8 end-to-end scenario
stubs it as `[id, time, <band>]`; `regionHeader bands` is that shape. -/
structure RegionResult where
  header : List String
  records : List (List Cell)
deriving DecidableEq, Repr

/-- Modelled from the spec: the header the stubbed collaborator returns for
a list of requested bands — `id`, `time`, then one column per band
(spec sections 4.3 and 8). -/
def regionHeader (bands : List String) : List String :=
  "id" :: "time" :: bands

/-- Replacement of the element at position `i` by `f` applied to it, used
for the in-place column update of src lines 158-159. -/
def modifyIdx (i : Nat) (f : α → α) : List α → List α
  | [] => []
  | a :: as =>
    match i with
    | 0 => f a :: as
    | n + 1 => a :: modifyIdx n f as

/-- Division of a cell by a number, as in `df.time / 1000` (src line 158).
Pandas would raise on a non-numeric column; the theorems below only apply
this to numeric cells. -/
def divCell (c : Cell) (d : Rat) : Cell :=
  match c with
  | .num q => .num (q / d)
  | c => c

/-- Decoding of an epoch-seconds number to a calendar timestamp, as in
`pd.to_datetime(df.time, unit='s')` (src line 159). -/
def toDatetime (c : Cell) : Cell :=
  match c with
  | .num q => .ts q
  | c => c

/-- Result normalization, src lines 147-164: build the frame from
`region[1:]` with columns `region[0]`, drop the `id` column, divide the
`time` column by 1000 and decode it to timestamps, rename `time` to `date`,
and append a constant `product` column. -/
def normalize (product : String) (r : RegionResult) : DataFrame :=
  let i := r.header.indexOf "id"
  let cols1 := r.header.eraseIdx i
  let rows1 := r.records.map (fun row => row.eraseIdx i)
  let t := cols1.indexOf "time"
  let rows2 := rows1.map (modifyIdx t (fun c => toDatetime (divCell c 1000)))
  let cols2 := cols1.map (fun c => if c = "time" then "date" else c)
  { columns := cols2 ++ ["product"],
    rows := rows2.map (fun row => row ++ [Cell.str product]) }

/-- One output action of the sink, src lines 169-172. -/
inductive OutputAction where
  | writeFile (path : String)
  | printConsole
deriving DecidableEq, Repr

/-- Output sink for one location, src lines 169-172: when `args.directory`
is truthy, write to `args.directory + loc[1] + "_gee_subset.csv"` — a plain
string concatenation, with no path separator inserted — else print. -/
def outputStep (directory : Option String) (locName : String) : OutputAction :=
  match directory with
  | none => .printConsole
  | some d =>
    if pyTruthyStr d then .writeFile (d ++ locName ++ "_gee_subset.csv")
    else .printConsole

/-- Output actions of a whole run: one `outputStep` per processed location
(the body of the loop of src line 123 ends in lines 169-172). -/
def runOutputs (directory : Option String) (locNames : List String) : List OutputAction :=
  locNames.map (outputStep directory)

/-- A path lies inside directory `d` when it extends `d` with a path
separator. -/
def insideDir (d path : String) : Bool :=
  List.isPrefixOf (d ++ "/").data path.data

/-- Header fields of the CSV file written by `df.to_csv(path)` with its
default `index=True` (src line 170): an empty name for the index column,
then the frame's columns. -/
def csvColumns (df : DataFrame) : List String :=
  "" :: df.columns

/-- Renaming a column list with the `time` to `date` map leaves it unchanged
when no entry is named `time`. -/
theorem map_rename_time_eq_self (bands : List String) (htime : "time" ∉ bands) :
    bands.map (fun c => if c = "time" then "date" else c) = bands := by
  induction bands with
  | nil => rfl
  | cons b bs ih =>
    rw [List.mem_cons, not_or] at htime
    have hb : ¬b = "time" := fun h => htime.1 h.symm
    simp [hb, ih htime.2]

/-- C9: when the `--file` argument is left at its falsy default, no branch of
src lines 99-106 assigns `locations`, so the loop entry at line 123 raises
`NameError` before any remote query is issued, even when a `--location`
pair was supplied. -/
theorem resolver_unbound_without_file (args : Args) (isfile : String → Bool)
    (hfile : args.file = none) :
    resolveLocations args isfile = .unbound ∧
    locationsLookup (resolveLocations args isfile) = .error (.nameError "locations") := by
  have h : resolveLocations args isfile = .unbound := by
    simp [resolveLocations, getattrTruthy, pyTruthyOptStr, hfile]
  exact ⟨h, by rw [h]; rfl⟩

/-- Witness for C9: a run with only a literal location pair ends in
`NameError` at the loop entry. -/
theorem resolver_unbound_without_file_witness :
    locationsLookup (resolveLocations
      ⟨"MODIS/MOD13Q1", ["NDVI"], "2013-01-01", "2014-12-31", "0", "30",
        some ("40.0", "-105.0"), none, none⟩ (fun _ => false)) =
      .error (.nameError "locations") :=
  (resolver_unbound_without_file _ _ rfl).2

/-- C10: when `--file` names an existing file, src line 101 reads `args.loc`,
an attribute the parser never defines (the option's destination is
`location`), so the branch raises `AttributeError` and no location from the
file is ever queried. -/
theorem resolver_attributeError_on_existing_file (args : Args)
    (isfile : String → Bool) (f : String) (hfile : args.file = some f)
    (hne : f ≠ "") (hisf : isfile f = true) :
    getattrTruthy args "loc" = .error (.attributeError "loc") ∧
    locationsLookup (resolveLocations args isfile) = .error (.attributeError "loc") := by
  have hloc : getattrTruthy args "loc" = .error (.attributeError "loc") := rfl
  have hfileT : getattrTruthy args "file" = .ok true := by
    simp [getattrTruthy, pyTruthyOptStr, hfile, hne]
  refine ⟨hloc, ?_⟩
  simp [resolveLocations, locationsLookup, hfileT, hfile, hisf, hloc]

/-- Witness for C10: a run whose `--file` value is an existing file raises
`AttributeError` on `args.loc`. -/
theorem resolver_attributeError_on_existing_file_witness :
    locationsLookup (resolveLocations
      ⟨"MODIS/MOD13Q1", ["NDVI"], "2013-01-01", "2014-12-31", "0", "30",
        none, some "sites.csv", none⟩ (fun _ => true)) =
      .error (.attributeError "loc") :=
  (resolver_attributeError_on_existing_file _ _ "sites.csv" rfl (by decide) rfl).2

/-- C1 (against the claim): the resolver never produces the single-item
location list.  With a literal pair and no file, `locations` stays unbound
and the loop entry raises `NameError`; with an existing N-row location file,
the `args.loc` access raises `AttributeError`, so neither one nor N
`Location` records ever reach the query loop. -/
theorem resolver_never_yields_locations :
    locationsLookup (resolveLocations
      ⟨"MODIS/MOD13Q1", ["NDVI"], "2013-01-01", "2014-12-31", "0", "30",
        some ("40.0", "-105.0"), none, none⟩ (fun _ => false)) =
      .error (.nameError "locations") ∧
    locationsLookup (resolveLocations
      ⟨"MODIS/MOD13Q1", ["NDVI"], "2013-01-01", "2014-12-31", "0", "30",
        none, some "sites.csv", none⟩ (fun _ => true)) =
      .error (.attributeError "loc") :=
  ⟨rfl, rfl⟩

/-- C5 (against the claim): supplying both an existing location file and a
literal pair does not print the warning of src line 102 and does not read
the file — evaluating `args.loc` raises `AttributeError` first. -/
theorem both_file_and_location_attributeError :
    resolveLocations
      ⟨"MODIS/MOD13Q1", ["NDVI"], "2013-01-01", "2014-12-31", "0", "30",
        some ("40.0", "-105.0"), some "sites.csv", none⟩ (fun _ => true) =
      .err (.attributeError "loc") :=
  rfl

/-- C6: when `--file` is given a nonempty value that is not a path to an
existing file, the resolver binds `locations` to the value handed verbatim
to the csv reader (src line 106) — it raises no file-not-found error of its
own. -/
theorem resolver_reads_value_when_not_isfile (args : Args)
    (isfile : String → Bool) (f : String) (hfile : args.file = some f)
    (hne : f ≠ "") (hisf : isfile f = false) :
    resolveLocations args isfile = .ok (.table f) := by
  have hfileT : getattrTruthy args "file" = .ok true := by
    simp [getattrTruthy, pyTruthyOptStr, hfile, hne]
  simp [resolveLocations, hfileT, hfile, hisf]

/-- Witness for C6: a missing path is handed verbatim to the csv reader. -/
theorem resolver_reads_value_when_not_isfile_witness :
    resolveLocations
      ⟨"MODIS/MOD13Q1", ["NDVI"], "2013-01-01", "2014-12-31", "0", "30",
        none, some "no_such.csv", none⟩ (fun _ => false) =
      .ok (.table "no_such.csv") :=
  resolver_reads_value_when_not_isfile _ _ "no_such.csv" rfl (by decide) rfl

/-- C2 (against the claim): with the radius argument equal to `0` — the
string `"0"` argparse stores — line 133's truthiness test selects the
rectangle branch, so a (degenerate) rectangle is built at the location, not
a point. -/
theorem radius_zero_builds_rectangle :
    buildGeometry "0" 0 40 (-105) = .rectangle (-105) 40 (-105) 40 ∧
    buildGeometry "0" 0 40 (-105) ≠ .point (-105) 40 := by
  constructor
  · show Geometry.rectangle (-105 - 0 * kmToDeg) (40 - 0 * kmToDeg)
      (-105 + 0 * kmToDeg) (40 + 0 * kmToDeg) = _
    norm_num
  · intro h
    exact Geometry.noConfusion (show Geometry.rectangle (-105 - 0 * kmToDeg)
      (40 - 0 * kmToDeg) (-105 + 0 * kmToDeg) (40 + 0 * kmToDeg) =
        .point (-105) 40 from h)

/-- C3: for any nonempty radius argument denoting `r > 0` km, the rectangle
of src lines 134-136 has bounds exactly `lon ± r * 0.008983` (x) and
`lat ± r * 0.008983` (y) around the location's center. -/
theorem rectangle_bounds_exact (radiusArg : String) (r lat lon : Rat)
    (hne : radiusArg ≠ "") (hr : 0 < r) :
    buildGeometry radiusArg r lat lon =
      .rectangle (lon - r * kmToDeg) (lat - r * kmToDeg)
        (lon + r * kmToDeg) (lat + r * kmToDeg) := by
  simp [buildGeometry, pyTruthyStr, hne]

/-- Witness for C3: a 2 km radius at (40, -105). -/
theorem rectangle_bounds_exact_witness :
    ("2" ≠ "" ∧ (0 : Rat) < 2) ∧
    buildGeometry "2" 2 40 (-105) =
      .rectangle (-105 - 2 * kmToDeg) (40 - 2 * kmToDeg)
        (-105 + 2 * kmToDeg) (40 + 2 * kmToDeg) :=
  ⟨⟨by decide, by decide⟩, rectangle_bounds_exact "2" 2 40 (-105) (by decide) (by decide)⟩

/-- C4: on a raw result with header `id, time, <bands>`, the normalizer
drops `id`, divides `time` by 1000, decodes it to a timestamp renamed
`date`, appends a constant `product` column, and passes every band value
through unchanged; `id` is absent from the output columns. -/
theorem normalize_contract (product : String) (bands : List String)
    (rows : List (Cell × Rat × List Cell))
    (hid : "id" ∉ bands) (htime : "time" ∉ bands) :
    normalize product
      ⟨"id" :: "time" :: bands,
        rows.map (fun p => p.1 :: Cell.num p.2.1 :: p.2.2)⟩ =
      { columns := "date" :: bands ++ ["product"],
        rows := rows.map (fun p => Cell.ts (p.2.1 / 1000) :: p.2.2 ++ [Cell.str product]) } ∧
    "id" ∉ "date" :: bands ++ ["product"] := by
  constructor
  · simp only [normalize, List.indexOf_cons_self, List.eraseIdx, List.map_map]
    refine congrArg₂ DataFrame.mk ?_ ?_
    · simp [map_rename_time_eq_self bands htime]
    · simp [Function.comp, List.eraseIdx, modifyIdx, divCell, toDatetime]
  · simp [hid]

/-- Witness for C4: one record with time 1000 ms decodes to the timestamp at
epoch + 1 second, band value and product column in place, `id` gone. -/
theorem normalize_contract_witness :
    ("id" ∉ ["Y"] ∧ "time" ∉ ["Y"]) ∧
    normalize "X" ⟨["id", "time", "Y"], [[Cell.num 7, Cell.num 1000, Cell.num 5]]⟩ =
      { columns := ["date", "Y", "product"],
        rows := [[Cell.ts 1, Cell.num 5, Cell.str "X"]] } := by
  refine ⟨⟨by decide, by decide⟩, ?_⟩
  have h := (normalize_contract "X" ["Y"] [(Cell.num 7, 1000, [Cell.num 5])]
    (by decide) (by decide)).1
  simp only [List.map_cons, List.map_nil] at h
  rw [h]
  norm_num

/-- C7 (against the claim): with the configured directory `out` and location
name `site`, the single write goes to `outsite_gee_subset.csv` — the
directory string is concatenated with no path separator, so the file does
not lie inside the directory. -/
theorem output_path_counterexample :
    runOutputs (some "out") ["site"] = [.writeFile "outsite_gee_subset.csv"] ∧
    insideDir "out" "outsite_gee_subset.csv" = false := by
  decide

/-- C7 (amended): with a truthy directory, exactly one file per location is
written, at the path obtained by concatenating the directory string, the
location name and `_gee_subset.csv` with no separator inserted; with no
directory configured every location is printed and nothing is written. -/
theorem output_one_action_per_location (d : String) (names : List String)
    (hd : d ≠ "") :
    runOutputs (some d) names =
      names.map (fun n => .writeFile (d ++ n ++ "_gee_subset.csv")) ∧
    (runOutputs (some d) names).length = names.length ∧
    runOutputs none names = names.map (fun _ => .printConsole) := by
  refine ⟨?_, ?_, ?_⟩
  · simp [runOutputs, outputStep, pyTruthyStr, hd]
  · simp [runOutputs]
  · induction names with
    | nil => rfl
    | cons a l ih => simpa [runOutputs, outputStep] using ih

/-- Witness for C7 (amended): directory `out/` and two locations. -/
theorem output_one_action_per_location_witness :
    runOutputs (some "out/") ["a", "b"] =
      [.writeFile "out/a_gee_subset.csv", .writeFile "out/b_gee_subset.csv"] := by
  have h := (output_one_action_per_location "out/" ["a", "b"] (by decide)).1
  rw [h]
  decide

/-- C8 (against the claim): the CSV written for product `X`, band `Y` and one
record does not consist of exactly the columns `date, Y, product` — the
writer's default index adds a leading unnamed column. -/
theorem csv_columns_counterexample :
    csvColumns (normalize "X" ⟨regionHeader ["Y"], [[Cell.num 0, Cell.num 0, Cell.num 5]]⟩) =
      ["", "date", "Y", "product"] ∧
    csvColumns (normalize "X" ⟨regionHeader ["Y"], [[Cell.num 0, Cell.num 0, Cell.num 5]]⟩) ≠
      ["date", "Y", "product"] := by
  decide

/-- C8 (amended): for the spec-modelled collaborator header `id, time,
<bands>`, the written CSV's fields are the unnamed index column, then
`date`, then one column per requested band in order, then `product`, and
nothing else. -/
theorem csv_columns_amended (product : String) (bands : List String)
    (records : List (List Cell)) (hid : "id" ∉ bands) (htime : "time" ∉ bands) :
    csvColumns (normalize product ⟨regionHeader bands, records⟩) =
      "" :: "date" :: bands ++ ["product"] := by
  simp only [csvColumns, normalize, regionHeader, List.indexOf_cons_self,
    List.eraseIdx]
  simp [map_rename_time_eq_self bands htime]

/-- Witness for C8 (amended): two bands. -/
theorem csv_columns_amended_witness :
    csvColumns (normalize "X" ⟨regionHeader ["B1", "B2"], []⟩) =
      ["", "date", "B1", "B2", "product"] := by
  have h := csv_columns_amended "X" ["B1", "B2"] [] (by decide) (by decide)
  simpa using h

end GeeSubsets
